import Mathlib

/-!
Verification of the cobebase_analyzer traversal-and-aggregation engine.

This file shallowly embeds the core of `src/cobebase_analyzer` in Lean:
the ignore-pattern matcher and extension tables of `core/config.py`, the
file-type registry of `core/models.py`, and the analyzer pipeline of
`core/analyzer.py` (line classification, per-file analysis, recursive
directory traversal, statistics aggregation and the largest-file tracker).
Python strings are modelled through their character lists, Python dicts as
association lists, and the filesystem as an inductive tree whose nodes carry
the error conditions (stat failure, read failure, directory access failure)
that the source catches.
-/

/-- Whitespace test matching what Python's `str.strip()` removes for the
ASCII inputs considered here. -/
def charIsSpace (c : Char) : Bool :=
  c = ' ' || c = '\t' || c = '\n' || c = '\r' || c = '\x0b' || c = '\x0c'

def dropLeadingSpaces : List Char → List Char
  | [] => []
  | c :: cs => if charIsSpace c then dropLeadingSpaces cs else c :: cs

/-- Model of Python `str.strip()`: remove leading and trailing whitespace. -/
def pyStrip (s : String) : String :=
  String.mk ((dropLeadingSpaces ((dropLeadingSpaces s.data).reverse)).reverse)

def isPrefixOfChars : List Char → List Char → Bool
  | [], _ => true
  | _ :: _, [] => false
  | a :: ps, b :: ss => a = b && isPrefixOfChars ps ss

/-- Model of Python `s.startswith(p)`. -/
def pyStartsWith (s p : String) : Bool :=
  isPrefixOfChars p.data s.data

/-- Model of Python `s.endswith(p)`. -/
def pyEndsWith (s p : String) : Bool :=
  isPrefixOfChars p.data.reverse s.data.reverse

def substrOccurs (sub : List Char) : List Char → Bool
  | [] => sub.isEmpty
  | c :: rest => isPrefixOfChars sub (c :: rest) || substrOccurs sub rest

/-- Model of Python `sub in s` (substring containment). -/
def pyContains (s sub : String) : Bool :=
  substrOccurs sub.data s.data

/-- Model of Python `s[1:]`. -/
def pyDropFirst (s : String) : String :=
  String.mk s.data.tail

/-- Model of Python `s.lower()`. -/
def pyToLower (s : String) : String :=
  String.mk (s.data.map Char.toLower)

def charsAfterLastDot : List Char → Option (List Char)
  | [] => none
  | c :: rest =>
    match charsAfterLastDot rest with
    | some s => some s
    | none => if c = '.' then some rest else none

/-- Model of Python `pathlib.Path(name).suffix`: the extension of the final
component, beginning with a dot; empty when the last dot is the first or the
last character of the name. -/
def pathSuffix (name : String) : String :=
  match name.data with
  | [] => ""
  | _ :: rest =>
    match charsAfterLastDot rest with
    | some [] => ""
    | some s => String.mk ('.' :: s)
    | none => ""

/-- `CommentPatterns` from `core/config.py`. -/
structure CommentPatterns where
  single : Option String
  multi_start : Option String
  multi_end : Option String
deriving DecidableEq

/-- The configuration fields of `Config` (`core/config.py`) consumed by the
analyzer core. -/
structure Config where
  max_file_size_mb : Nat
  max_depth : Option Nat
  include_hidden : Bool
  text_file_extensions : List String
  binary_extensions : List String
  comment_patterns : List (String × CommentPatterns)
  default_ignore_patterns : List String

def lookupStr {α : Type} : List (String × α) → String → Option α
  | [], _ => none
  | (k, v) :: rest, key => if k = key then some v else lookupStr rest key

/-- The `_extensions` table built by `FileTypeRegistry._load_defaults` in
`core/models.py`. -/
def registryExtensions : List (String × String) :=
  [(".py", "Python"), (".js", "JavaScript"), (".ts", "TypeScript"),
   (".jsx", "React JSX"), (".tsx", "React TSX"), (".java", "Java"),
   (".cpp", "C++"), (".c", "C"), (".cs", "C#"), (".go", "Go"),
   (".rs", "Rust"), (".php", "PHP"), (".rb", "Ruby"), (".swift", "Swift"),
   (".kt", "Kotlin"), (".scala", "Scala"), (".r", "R"), (".m", "Objective-C"),
   (".pl", "Perl"), (".lua", "Lua"), (".sh", "Shell"), (".ps1", "PowerShell"),
   (".bat", "Batch"), (".vbs", "VBScript"), (".sql", "SQL"),
   (".hs", "Haskell"), (".ml", "OCaml"), (".f90", "Fortran"),
   (".asm", "Assembly"), (".s", "Assembly"),
   (".html", "HTML"), (".htm", "HTML"), (".css", "CSS"),
   (".scss", "SCSS"), (".sass", "SASS"), (".less", "LESS"),
   (".xml", "XML"), (".svg", "SVG"),
   (".json", "JSON"), (".yaml", "YAML"), (".yml", "YAML"),
   (".toml", "TOML"), (".ini", "INI"), (".cfg", "Config"),
   (".conf", "Config"), (".env", "Environment"),
   (".properties", "Properties"), (".lock", "Lock File"),
   (".md", "Markdown"), (".rst", "reStructuredText"),
   (".txt", "Text"), (".pdf", "PDF"), (".doc", "Word"),
   (".docx", "Word"), (".rtf", "Rich Text")]

/-- `FileTypeRegistry.get_file_type` from `core/models.py`: category from the
lowercased extension of the file name, with sentinel `"Unknown"`. -/
def get_file_type (name : String) : String :=
  match lookupStr registryExtensions (pyToLower (pathSuffix name)) with
  | some t => t
  | none => "Unknown"

/-- `Config.is_text_file` from `core/config.py`. -/
def Config.is_text_file (cfg : Config) (name : String) : Bool :=
  cfg.text_file_extensions.contains (pyToLower (pathSuffix name))

/-- `Config.is_binary_file` from `core/config.py`. -/
def Config.is_binary_file (cfg : Config) (name : String) : Bool :=
  cfg.binary_extensions.contains (pyToLower (pathSuffix name))

/-- `Config.get_comment_patterns_for_file` from `core/config.py`. -/
def Config.get_comment_patterns_for_file (cfg : Config) (name : String) : CommentPatterns :=
  match lookupStr cfg.comment_patterns (get_file_type name) with
  | some p => p
  | none => { single := none, multi_start := none, multi_end := none }

/-- One pattern test of the loop in `Config.should_ignore_file`: a pattern
starting with `*` is a suffix test on the remainder, any other pattern is a
substring test. -/
def patternMatches (pathStr pattern : String) : Bool :=
  if pyStartsWith pattern "*" then pyEndsWith pathStr (pyDropFirst pattern)
  else pyContains pathStr pattern

/-- The pattern loop of `Config.should_ignore_file` (first match wins). -/
def ignoreLoop (pathStr : String) : List String → Bool
  | [] => false
  | p :: ps =>
    if pyStartsWith p "*" then
      if pyEndsWith pathStr (pyDropFirst p) then true else ignoreLoop pathStr ps
    else if pyContains pathStr p then true
    else ignoreLoop pathStr ps

/-- `Config.should_ignore_file` from `core/config.py`: the default ignore
patterns are always prepended to the caller-supplied list. -/
def Config.should_ignore_file (cfg : Config) (pathStr : String) (custom : List String) : Bool :=
  ignoreLoop pathStr (cfg.default_ignore_patterns ++ custom)

/-- The default `Config()` of `core/config.py`, restricted to the fields the
core consumes. -/
def defaultConfig : Config :=
  { max_file_size_mb := 100
  , max_depth := none
  , include_hidden := false
  , text_file_extensions :=
      [".txt", ".md", ".rst", ".log", ".csv", ".tsv", ".json", ".xml",
       ".yaml", ".yml", ".toml", ".ini", ".cfg", ".conf", ".env",
       ".py", ".js", ".ts", ".jsx", ".tsx", ".java", ".cpp", ".c",
       ".cs", ".go", ".rs", ".php", ".rb", ".swift", ".kt", ".scala",
       ".r", ".m", ".pl", ".lua", ".sh", ".ps1", ".bat", ".vbs",
       ".sql", ".hs", ".ml", ".f90", ".asm", ".s", ".html", ".htm",
       ".css", ".scss", ".sass", ".less", ".svg"]
  , binary_extensions :=
      [".exe", ".dll", ".so", ".dylib", ".pyc", ".pyo", ".jar",
       ".war", ".ear", ".apk", ".ipa", ".deb", ".rpm", ".tar",
       ".gz", ".zip", ".7z", ".rar", ".bz2", ".xz", ".jpg", ".jpeg",
       ".png", ".gif", ".bmp", ".tiff", ".ico", ".mp3", ".wav",
       ".mp4", ".avi", ".mov", ".pdf", ".doc", ".docx", ".rtf"]
  , comment_patterns :=
      [("Python", { single := some "#", multi_start := some "\"\"\"", multi_end := some "\"\"\"" }),
       ("JavaScript", { single := some "//", multi_start := some "/*", multi_end := some "*/" }),
       ("TypeScript", { single := some "//", multi_start := some "/*", multi_end := some "*/" }),
       ("Java", { single := some "//", multi_start := some "/*", multi_end := some "*/" }),
       ("C++", { single := some "//", multi_start := some "/*", multi_end := some "*/" }),
       ("C", { single := some "//", multi_start := some "/*", multi_end := some "*/" }),
       ("C#", { single := some "//", multi_start := some "/*", multi_end := some "*/" }),
       ("Go", { single := some "//", multi_start := some "/*", multi_end := some "*/" }),
       ("Rust", { single := some "//", multi_start := some "/*", multi_end := some "*/" }),
       ("PHP", { single := some "//", multi_start := some "/*", multi_end := some "*/" }),
       ("Ruby", { single := some "#", multi_start := some "=begin", multi_end := some "=end" }),
       ("Swift", { single := some "//", multi_start := some "/*", multi_end := some "*/" }),
       ("Kotlin", { single := some "//", multi_start := some "/*", multi_end := some "*/" }),
       ("Scala", { single := some "//", multi_start := some "/*", multi_end := some "*/" }),
       ("R", { single := some "#", multi_start := none, multi_end := none }),
       ("Objective-C", { single := some "//", multi_start := some "/*", multi_end := some "*/" }),
       ("Perl", { single := some "#", multi_start := some "=pod", multi_end := some "=cut" }),
       ("Lua", { single := some "--", multi_start := some "--[[", multi_end := some "]]" }),
       ("Shell", { single := some "#", multi_start := none, multi_end := none }),
       ("PowerShell", { single := some "#", multi_start := some "<#", multi_end := some "#>" }),
       ("Batch", { single := some "REM", multi_start := none, multi_end := none }),
       ("VBScript", { single := some "\x27", multi_start := none, multi_end := none }),
       ("SQL", { single := some "--", multi_start := some "/*", multi_end := some "*/" }),
       ("Haskell", { single := some "--", multi_start := some "\x7b-", multi_end := some "-\x7d" }),
       ("OCaml", { single := some "(*", multi_start := some "(*", multi_end := some "*)" }),
       ("Fortran", { single := some "!", multi_start := none, multi_end := none }),
       ("Assembly", { single := some ";", multi_start := none, multi_end := none }),
       ("HTML", { single := none, multi_start := some "<!--", multi_end := some "-->" }),
       ("CSS", { single := none, multi_start := some "/*", multi_end := some "*/" }),
       ("SCSS", { single := some "//", multi_start := some "/*", multi_end := some "*/" }),
       ("SASS", { single := some "//", multi_start := some "/*", multi_end := some "*/" }),
       ("LESS", { single := some "//", multi_start := some "/*", multi_end := some "*/" }),
       ("XML", { single := none, multi_start := some "<!--", multi_end := some "-->" }),
       ("YAML", { single := some "#", multi_start := none, multi_end := none }),
       ("TOML", { single := some "#", multi_start := none, multi_end := none }),
       ("INI", { single := some ";", multi_start := none, multi_end := none }),
       ("JSON", { single := none, multi_start := none, multi_end := none }),
       ("Markdown", { single := none, multi_start := none, multi_end := none }),
       ("reStructuredText", { single := some "..", multi_start := none, multi_end := none }),
       ("Text", { single := none, multi_start := none, multi_end := none })]
  , default_ignore_patterns :=
      ["__pycache__", ".git", ".svn", ".hg", ".DS_Store", "Thumbs.db",
       "node_modules", "venv", "env", ".venv", ".env", "dist", "build",
       "*.pyc", "*.pyo", "*.so", "*.dll", "*.exe", "*.log", "*.tmp",
       ".pytest_cache", ".coverage", ".tox", ".mypy_cache"] }

/-- Classification outcome of one line in `_analyze_line_types`. -/
inductive LineKind where
  | blank
  | comment
  | code
deriving DecidableEq

/-- Truthiness-guarded containment test, as in
`comment_patterns.multi_start and comment_patterns.multi_start in stripped`
(the guard fails for `None` and for the empty string). -/
def markerIn (marker : Option String) (stripped : String) : Bool :=
  match marker with
  | none => false
  | some m => if m = "" then false else pyContains stripped m

/-- Truthiness-guarded startswith test, as in
`comment_patterns.single and stripped.startswith(comment_patterns.single)`. -/
def markerStarts (marker : Option String) (stripped : String) : Bool :=
  match marker with
  | none => false
  | some m => if m = "" then false else pyStartsWith stripped m

/-- One iteration of the loop body of
`CodebaseAnalyzer._analyze_line_types` (`core/analyzer.py`): the line's
classification together with the updated `in_multiline_comment` state. -/
def lineStep (pats : CommentPatterns) (inMultiline : Bool) (line : String) : LineKind × Bool :=
  let stripped := pyStrip line
  if stripped = "" then (LineKind.blank, inMultiline)
  else if markerIn pats.multi_start stripped then (LineKind.comment, true)
  else if markerIn pats.multi_end stripped then (LineKind.comment, false)
  else if inMultiline then (LineKind.comment, inMultiline)
  else if markerStarts pats.single stripped then (LineKind.comment, inMultiline)
  else (LineKind.code, inMultiline)

def addKind : LineKind → Nat × Nat × Nat → Nat × Nat × Nat
  | LineKind.blank, (c, m, b) => (c, m, b + 1)
  | LineKind.comment, (c, m, b) => (c, m + 1, b)
  | LineKind.code, (c, m, b) => (c + 1, m, b)

/-- The loop of `_analyze_line_types`, threading `in_multiline_comment`
through the lines; returns `(code_lines, comment_lines, blank_lines)`. -/
def classifyLines (pats : CommentPatterns) : List String → Bool → Nat × Nat × Nat
  | [], _ => (0, 0, 0)
  | line :: rest, inMultiline =>
    addKind (lineStep pats inMultiline line).1
      (classifyLines pats rest (lineStep pats inMultiline line).2)

/-- `CodebaseAnalyzer._analyze_line_types`: a single forward pass with
`in_multiline_comment` initially false. -/
def analyze_line_types (pats : CommentPatterns) (content : List String) : Nat × Nat × Nat :=
  classifyLines pats content false

/-- `FileInfo` from `core/models.py` (the per-file record). -/
structure FileInfo where
  path : String
  name : String
  type : String
  size : Nat
  lines : Nat
  code_lines : Nat
  comment_lines : Nat
  blank_lines : Nat
  extension : String
  last_modified : Nat
deriving DecidableEq

/-- `ProjectStats` from `core/models.py`; the three per-category dicts are
association lists. -/
structure ProjectStats where
  total_files : Nat
  total_dirs : Nat
  total_lines : Nat
  total_size : Nat
  file_types : List (String × Nat)
  file_sizes : List (String × Nat)
  lines_by_type : List (String × Nat)
deriving DecidableEq

/-- Python `d.get(k, 0)` on the association-list model of a dict. -/
def dictGet : List (String × Nat) → String → Nat
  | [], _ => 0
  | (k2, v) :: rest, k => if k2 = k then v else dictGet rest k

/-- Python `d[k] = v` on the association-list model of a dict. -/
def dictSet : List (String × Nat) → String → Nat → List (String × Nat)
  | [], k, v => [(k, v)]
  | (k2, v2) :: rest, k, v =>
    if k2 = k then (k, v) :: rest else (k2, v2) :: dictSet rest k v

/-- Python `d[k] = d.get(k, 0) + n`. -/
def dictAdd (d : List (String × Nat)) (k : String) (n : Nat) : List (String × Nat) :=
  dictSet d k (dictGet d k + n)

/-- Sum of all values of the dict, used to state the per-category invariants. -/
def dictSum (d : List (String × Nat)) : Nat :=
  (d.map Prod.snd).sum

/-- Filesystem model. A file carries its stat data and content together with
the error conditions the source catches: `statError` models an
`OSError`/`PermissionError` from `stat()`, `readError` one from `open`/read.
A directory's `accessError` models `iterdir()` raising. -/
inductive FSEntry where
  | file (name : String) (size : Nat) (mtime : Nat) (content : List String)
      (statError : Bool) (readError : Bool)
  | dir (name : String) (accessError : Bool) (children : List FSEntry)

def FSEntry.name : FSEntry → String
  | FSEntry.file n _ _ _ _ _ => n
  | FSEntry.dir n _ _ => n

/-- The analyzer state after `__init__` (`core/analyzer.py`): resolved
configuration, caller ignore patterns, and the effective depth limit. -/
structure Analyzer where
  config : Config
  ignore_patterns : List String
  max_depth : Option Nat

/-- Python `max_depth or self.config.max_depth` from
`CodebaseAnalyzer.__init__`: `None` and `0` are both falsy, so either falls
back to the configured value. -/
def pyOrOptNat (arg : Option Nat) (dflt : Option Nat) : Option Nat :=
  match arg with
  | none => dflt
  | some 0 => dflt
  | some n => some n

/-- `CodebaseAnalyzer.__init__`, restricted to the fields the traversal
reads (`ignore_patterns or []` and `max_depth or self.config.max_depth`). -/
def mkAnalyzer (cfg : Config) (ignore : Option (List String)) (maxDepth : Option Nat) : Analyzer :=
  { config := cfg
  , ignore_patterns := match ignore with | none => [] | some l => l
  , max_depth := pyOrOptNat maxDepth cfg.max_depth }

/-- `CodebaseAnalyzer._should_skip_directory`: depth check (the directory's
own depth against the limit) followed by the ignore-pattern check. -/
def Analyzer.should_skip_directory (a : Analyzer) (depth : Nat) (pathStr : String) : Bool :=
  (match a.max_depth with
   | some md => decide (depth > md)
   | none => false)
  || a.config.should_ignore_file pathStr a.ignore_patterns

/-- `CodebaseAnalyzer._should_ignore_file`: ignore patterns, then the size
limit; a failing `stat` also ignores the file. -/
def Analyzer.should_ignore_file (a : Analyzer) (pathStr : String) (size : Nat)
    (statError : Bool) : Bool :=
  if a.config.should_ignore_file pathStr a.ignore_patterns then true
  else if statError then true
  else decide (size > a.config.max_file_size_mb * 1024 * 1024)

/-- `CodebaseAnalyzer._analyze_file`: stat (returning `None` on failure),
category lookup, then line counting only for text files, degrading to
all-zero counts on a read error. -/
def Analyzer.analyze_file (a : Analyzer) (pathStr name : String) (size mtime : Nat)
    (content : List String) (statError readError : Bool) : Option FileInfo :=
  if statError then none
  else
    let counts : Nat × Nat × Nat × Nat :=
      if a.config.is_text_file name then
        if readError then (0, 0, 0, 0)
        else
          (content.length,
           analyze_line_types (a.config.get_comment_patterns_for_file name) content)
      else (0, 0, 0, 0)
    some { path := pathStr
         , name := name
         , type := get_file_type name
         , size := size
         , lines := counts.1
         , code_lines := counts.2.1
         , comment_lines := counts.2.2.1
         , blank_lines := counts.2.2.2
         , extension := pyToLower (pathSuffix name)
         , last_modified := mtime }

/-- Mutable traversal state of `_analyze_directory`: the `ProjectStats`, the
`files` list and the `largest_files` list. -/
structure AnalyzeState where
  stats : ProjectStats
  files : List FileInfo
  largest_files : List FileInfo

/-- The sort key of `largest_files.sort(key=lambda x: x.size, reverse=True)`:
descending by size. Python's sort is stable, as is `List.mergeSort`. -/
def sizeDescLe (x y : FileInfo) : Bool :=
  decide (y.size ≤ x.size)

/-- The largest-file tracking block of `_analyze_directory`: append, stable
sort descending by size, pop the last element when over capacity `n` (the
source uses `n = 20`). -/
def topNOffer (n : Nat) (l : List FileInfo) (fi : FileInfo) : List FileInfo :=
  let l2 := (l ++ [fi]).mergeSort sizeDescLe
  if l2.length > n then l2.dropLast else l2

/-- The statistics fold-in block of `_analyze_directory` executed for each
analyzed file. -/
def processFile (st : AnalyzeState) (fi : FileInfo) : AnalyzeState :=
  { stats :=
      { total_files := st.stats.total_files + 1
      , total_dirs := st.stats.total_dirs
      , total_size := st.stats.total_size + fi.size
      , total_lines := st.stats.total_lines + fi.lines
      , file_types := dictAdd st.stats.file_types fi.type 1
      , file_sizes := dictAdd st.stats.file_sizes fi.type fi.size
      , lines_by_type := dictAdd st.stats.lines_by_type fi.type fi.lines }
  , files := st.files ++ [fi]
  , largest_files := topNOffer 20 st.largest_files fi }

/-- The file branch of the `_analyze_directory` loop: ignore check, then
`_analyze_file`, folding a produced record into the state. -/
def processFileEntry (a : Analyzer) (childPath name : String) (size mtime : Nat)
    (content : List String) (statError readError : Bool) (st : AnalyzeState) : AnalyzeState :=
  if a.should_ignore_file childPath size statError then st
  else
    match a.analyze_file childPath name size mtime content statError readError with
    | none => st
    | some fi => processFile st fi

/-- The `stats.total_dirs += 1` step of the `_analyze_directory` loop. -/
def bumpDirs (st : AnalyzeState) : AnalyzeState :=
  { st with stats := { st.stats with total_dirs := st.stats.total_dirs + 1 } }

mutual

/-- `CodebaseAnalyzer._analyze_directory`: skip check, then iteration over
the children; `iterdir` failing (`accessError`) is caught and absorbed. -/
def Analyzer.analyze_directory (a : Analyzer) : FSEntry → String → Nat → AnalyzeState → AnalyzeState
  | FSEntry.file _ _ _ _ _ _, _, _, st => st
  | FSEntry.dir _ accessError children, pathStr, depth, st =>
    if a.should_skip_directory depth pathStr then st
    else if accessError then st
    else a.processChildren children pathStr depth st

/-- The `for item in directory.iterdir()` loop of `_analyze_directory`:
hidden entries are skipped, files go through `_analyze_file`, child
directories bump `total_dirs` and are recursed into while `depth` is below
the limit. -/
def Analyzer.processChildren (a : Analyzer) : List FSEntry → String → Nat → AnalyzeState → AnalyzeState
  | [], _, _, st => st
  | FSEntry.file name size mtime content statError readError :: rest, pathStr, depth, st =>
    let st2 :=
      if !a.config.include_hidden && pyStartsWith name "." then st
      else processFileEntry a (pathStr ++ "/" ++ name) name size mtime content statError readError st
    a.processChildren rest pathStr depth st2
  | FSEntry.dir dname accessError dchildren :: rest, pathStr, depth, st =>
    let st2 :=
      if !a.config.include_hidden && pyStartsWith dname "." then st
      else
        let stD := bumpDirs st
        match a.max_depth with
        | none =>
          a.analyze_directory (FSEntry.dir dname accessError dchildren)
            (pathStr ++ "/" ++ dname) (depth + 1) stD
        | some md =>
          if depth < md then
            a.analyze_directory (FSEntry.dir dname accessError dchildren)
              (pathStr ++ "/" ++ dname) (depth + 1) stD
          else stD
    a.processChildren rest pathStr depth st2

end

/-- The fatal error of `CodebaseAnalyzer.analyze`: `FileNotFoundError` when
the root path does not exist. -/
inductive AnalyzerError where
  | pathNotFound
deriving DecidableEq

/-- `AnalysisResult` from `core/models.py`, restricted to the traversal
outputs (the final `largest_files` keeps the top 10). -/
structure AnalysisResult where
  stats : ProjectStats
  files : List FileInfo
  largest_files : List FileInfo
deriving DecidableEq

def initState : AnalyzeState :=
  { stats := { total_files := 0, total_dirs := 0, total_lines := 0, total_size := 0
             , file_types := [], file_sizes := [], lines_by_type := [] }
  , files := []
  , largest_files := [] }

/-- `CodebaseAnalyzer.analyze`: raise path-not-found when the root does not
exist (modelled by `root = none`), otherwise run the traversal from depth 0
and assemble the result. -/
def Analyzer.analyze (a : Analyzer) (rootPath : String) (root : Option FSEntry) :
    Except AnalyzerError AnalysisResult :=
  match root with
  | none => Except.error AnalyzerError.pathNotFound
  | some e =>
    let st := a.analyze_directory e rootPath 0 initState
    Except.ok { stats := st.stats, files := st.files
              , largest_files := st.largest_files.take 10 }

/-- What the traversal guarantees about every record folded into the state:
it was produced by `_analyze_file` on a path that passed the per-file ignore
check. -/
def FileOk (a : Analyzer) (fi : FileInfo) : Prop :=
  ∃ (childPath name : String) (size mtime : Nat) (content : List String)
    (statError readError : Bool),
    a.analyze_file childPath name size mtime content statError readError = some fi ∧
    a.should_ignore_file childPath size statError = false

/-- The C-style comment pattern of the default configuration (JavaScript,
C, Java, ...). -/
def cStylePatterns : CommentPatterns :=
  { single := some "//", multi_start := some "/*", multi_end := some "*/" }

/-- Projection of an analysis outcome to the list of recorded file paths. -/
def analysisFilePaths (x : Except AnalyzerError AnalysisResult) : Option (List String) :=
  match x with
  | Except.ok r => some (r.files.map (fun fi => fi.path))
  | Except.error _ => none

/-- Projection of an analysis outcome to the records and the file/size
totals. -/
def analysisFilesAndTotals (x : Except AnalyzerError AnalysisResult) :
    Option (List FileInfo × Nat × Nat) :=
  match x with
  | Except.ok r => some (r.files, r.stats.total_files, r.stats.total_size)
  | Except.error _ => none

/-- A root directory containing a single subdirectory with one Python file. -/
def c1Tree : FSEntry :=
  FSEntry.dir "r" false
    [FSEntry.dir "sub" false [FSEntry.file "a.py" 1 0 ["x = 1"] false false]]

/-- A root directory containing one file whose size (104857601 bytes)
exceeds the default 100 MB limit. -/
def c3Tree : FSEntry :=
  FSEntry.dir "r" false [FSEntry.file "big.py" 104857601 0 ["x"] false false]

/-- An existing root directory with no children. -/
def emptyRootDir : FSEntry :=
  FSEntry.dir "r" false []

/-- The analysis result of an empty root directory. -/
def emptyResult : AnalysisResult :=
  { stats := { total_files := 0, total_dirs := 0, total_lines := 0, total_size := 0
             , file_types := [], file_sizes := [], lines_by_type := [] }
  , files := []
  , largest_files := [] }

/-- The record `_analyze_file` produces for a three-line Python file
(one comment line, one blank line, one code line). -/
def c2Record : FileInfo :=
  { path := "/r/a.py", name := "a.py", type := "Python", size := 5, lines := 3
  , code_lines := 1, comment_lines := 1, blank_lines := 1, extension := ".py"
  , last_modified := 0 }

/-- A record of the given size, for exercising the largest-file tracker. -/
def sampleRecord (sz : Nat) : FileInfo :=
  { path := "/r/f.txt", name := "f.txt", type := "Text", size := sz, lines := 0
  , code_lines := 0, comment_lines := 0, blank_lines := 0, extension := ".txt"
  , last_modified := 0 }

theorem addKind_sum (k : LineKind) (t : Nat × Nat × Nat) :
    (addKind k t).1 + (addKind k t).2.1 + (addKind k t).2.2 = t.1 + t.2.1 + t.2.2 + 1 := by
  obtain ⟨c, m, b⟩ := t
  cases k <;> simp [addKind] <;> omega

theorem classifyLines_sum (pats : CommentPatterns) :
    ∀ (content : List String) (inMultiline : Bool),
      (classifyLines pats content inMultiline).1 +
        (classifyLines pats content inMultiline).2.1 +
        (classifyLines pats content inMultiline).2.2 = content.length
  | [], _ => rfl
  | line :: rest, inM => by
    have ih := classifyLines_sum pats rest (lineStep pats inM line).2
    simp only [classifyLines, addKind_sum, ih, List.length_cons]

theorem ignoreLoop_cons (pathStr p : String) (ps : List String) :
    ignoreLoop pathStr (p :: ps) = (patternMatches pathStr p || ignoreLoop pathStr ps) := by
  simp only [ignoreLoop, patternMatches]
  by_cases h1 : pyStartsWith p "*" = true
  · by_cases h2 : pyEndsWith pathStr (pyDropFirst p) = true <;> simp [h1, h2]
  · by_cases h2 : pyContains pathStr p = true <;> simp [h1, h2]

theorem ignoreLoop_iff (pathStr : String) (patterns : List String) :
    ignoreLoop pathStr patterns = true ↔
      ∃ p ∈ patterns, patternMatches pathStr p = true := by
  induction patterns with
  | nil => simp [ignoreLoop]
  | cons p ps ih => simp [ignoreLoop_cons, ih]

theorem dictSum_dictAdd (d : List (String × Nat)) (k : String) (n : Nat) :
    dictSum (dictAdd d k n) = dictSum d + n := by
  induction d with
  | nil => simp [dictAdd, dictGet, dictSet, dictSum]
  | cons kv rest ih =>
    obtain ⟨k2, v⟩ := kv
    by_cases h : k2 = k
    · simp [dictAdd, dictGet, dictSet, dictSum, h]
      omega
    · simp only [dictAdd, dictGet, dictSet, if_neg h, dictSum, List.map_cons, List.sum_cons] at ih ⊢
      omega

theorem analyze_file_path_size (a : Analyzer) (pathStr name : String) (size mtime : Nat)
    (content : List String) (statError readError : Bool) (fi : FileInfo)
    (h : a.analyze_file pathStr name size mtime content statError readError = some fi) :
    fi.path = pathStr ∧ fi.size = size := by
  unfold Analyzer.analyze_file at h
  split at h
  · exact absurd h (by simp)
  · rw [Option.some.injEq] at h
    subst h
    exact ⟨rfl, rfl⟩

theorem should_ignore_file_false_config (a : Analyzer) (p : String) (s : Nat) (se : Bool)
    (h : a.should_ignore_file p s se = false) :
    a.config.should_ignore_file p a.ignore_patterns = false := by
  unfold Analyzer.should_ignore_file at h
  by_cases hc : a.config.should_ignore_file p a.ignore_patterns = true
  · rw [if_pos hc] at h
    exact absurd h (by simp)
  · exact Bool.not_eq_true _ |>.mp hc

theorem processFileEntry_preserves (a : Analyzer) (Q : AnalyzeState → Prop)
    (hfile : ∀ st fi, Q st → FileOk a fi → Q (processFile st fi))
    (childPath name : String) (size mtime : Nat) (content : List String)
    (statError readError : Bool) (st : AnalyzeState) (hQ : Q st) :
    Q (processFileEntry a childPath name size mtime content statError readError st) := by
  unfold processFileEntry
  split
  · exact hQ
  · rename_i hign
    cases hfi : a.analyze_file childPath name size mtime content statError readError with
    | none => exact hQ
    | some fi =>
      refine hfile st fi hQ
        ⟨childPath, name, size, mtime, content, statError, readError, hfi, ?_⟩
      simpa using hign

mutual

theorem analyze_directory_preserves (a : Analyzer) (Q : AnalyzeState → Prop)
    (hdirs : ∀ st, Q st → Q (bumpDirs st))
    (hfile : ∀ st fi, Q st → FileOk a fi → Q (processFile st fi)) :
    ∀ (e : FSEntry) (pathStr : String) (depth : Nat) (st : AnalyzeState),
      Q st → Q (a.analyze_directory e pathStr depth st)
  | FSEntry.file n s m c se re, pathStr, depth, st, hQ => by
    simpa only [Analyzer.analyze_directory] using hQ
  | FSEntry.dir dname aErr children, pathStr, depth, st, hQ => by
    rw [Analyzer.analyze_directory]
    split
    · exact hQ
    · split
      · exact hQ
      · exact processChildren_preserves a Q hdirs hfile children pathStr depth st hQ

theorem processChildren_preserves (a : Analyzer) (Q : AnalyzeState → Prop)
    (hdirs : ∀ st, Q st → Q (bumpDirs st))
    (hfile : ∀ st fi, Q st → FileOk a fi → Q (processFile st fi)) :
    ∀ (cs : List FSEntry) (pathStr : String) (depth : Nat) (st : AnalyzeState),
      Q st → Q (a.processChildren cs pathStr depth st)
  | [], _, _, st, hQ => by
    simpa only [Analyzer.processChildren] using hQ
  | FSEntry.file name size mtime content statError readError :: rest, pathStr, depth, st, hQ => by
    rw [Analyzer.processChildren]
    apply processChildren_preserves a Q hdirs hfile rest
    split
    · exact hQ
    · exact processFileEntry_preserves a Q hfile _ _ _ _ _ _ _ st hQ
  | FSEntry.dir dname aErr dchildren :: rest, pathStr, depth, st, hQ => by
    rw [Analyzer.processChildren]
    apply processChildren_preserves a Q hdirs hfile rest
    split
    · exact hQ
    · split
      · exact analyze_directory_preserves a Q hdirs hfile
          (FSEntry.dir dname aErr dchildren) _ _ _ (hdirs st hQ)
      · split
        · exact analyze_directory_preserves a Q hdirs hfile
            (FSEntry.dir dname aErr dchildren) _ _ _ (hdirs st hQ)
        · exact hdirs st hQ

end

/-- C2: every record `_analyze_file` produces from a successfully read text
file satisfies `code_lines + comment_lines + blank_lines = lines`; for a
non-text or unreadable file all four counts are 0 while the size is still
the stat size. -/
theorem c2_line_count_invariant (a : Analyzer) (pathStr name : String) (size mtime : Nat)
    (content : List String) (statError readError : Bool) (fi : FileInfo)
    (h : a.analyze_file pathStr name size mtime content statError readError = some fi) :
    (a.config.is_text_file name = true → readError = false →
       fi.code_lines + fi.comment_lines + fi.blank_lines = fi.lines)
  ∧ ((a.config.is_text_file name = false ∨ readError = true) →
       fi.lines = 0 ∧ fi.code_lines = 0 ∧ fi.comment_lines = 0 ∧ fi.blank_lines = 0)
  ∧ fi.size = size := by
  unfold Analyzer.analyze_file at h
  split at h
  · exact absurd h (by simp)
  · rw [Option.some.injEq] at h
    subst h
    refine ⟨?_, ?_, rfl⟩
    · intro htext hread
      subst hread
      simp only [htext, if_true, if_false, Bool.false_eq_true]
      exact classifyLines_sum _ content false
    · intro hcase
      rcases hcase with hbin | hread
      · simp [hbin]
      · subst hread
        by_cases htext : a.config.is_text_file name = true <;> simp [htext]

/-- C2 witness: the invariant instantiated on a concrete three-line Python
file. -/
theorem c2_witness :
    c2Record.code_lines + c2Record.comment_lines + c2Record.blank_lines = c2Record.lines ∧
    c2Record.size = 5 := by
  have h := c2_line_count_invariant (mkAnalyzer defaultConfig none none) "/r/a.py" "a.py" 5 0
    ["# c", "", "x = 1"] false false c2Record (by decide)
  exact ⟨h.1 (by decide) rfl, h.2.2⟩

/-- C4 counterexample: with the C-style pattern, a line processed while
`in_multiline` is true that contains both the end marker and the start
marker is counted as a comment but leaves `in_multiline` true, not false,
because the start-marker check runs first and unconditionally. -/
theorem c4_counterexample :
    ¬ (lineStep cStylePatterns true "*/ /*" = (LineKind.comment, false)) := by decide

/-- C4 amended: the start-marker check runs on every non-blank line
regardless of `in_multiline`; while `in_multiline` is true, a line
containing the end marker but not the start marker is counted as a comment
and `in_multiline` becomes false, while a line containing the start marker
is counted as a comment and `in_multiline` stays true. -/
theorem c4_start_check_unconditional (pats : CommentPatterns) (line : String)
    (hnb : ¬ pyStrip line = "") :
    (markerIn pats.multi_start (pyStrip line) = false →
     markerIn pats.multi_end (pyStrip line) = true →
     lineStep pats true line = (LineKind.comment, false))
  ∧ (markerIn pats.multi_start (pyStrip line) = true →
     lineStep pats true line = (LineKind.comment, true)) := by
  constructor
  · intro h1 h2
    simp [lineStep, hnb, h1, h2]
  · intro h1
    simp [lineStep, hnb, h1]

/-- C4 witness: the amended behavior on concrete C-style lines. -/
theorem c4_witness :
    lineStep cStylePatterns true "end */" = (LineKind.comment, false) ∧
    lineStep cStylePatterns true "*/ /*" = (LineKind.comment, true) :=
  ⟨(c4_start_check_unconditional cStylePatterns "end */" (by decide)).1 (by decide) (by decide),
   (c4_start_check_unconditional cStylePatterns "*/ /*" (by decide)).2 (by decide)⟩

/-- C7: `should_ignore_file` returns true exactly when some pattern of the
evaluated list (defaults followed by the caller's list) matches, where a
pattern starting with `*` matches by suffix on its remainder and any other
pattern by substring containment; with the concrete examples of the spec. -/
theorem c7_ignore_matcher :
    (∀ (cfg : Config) (pathStr : String) (custom : List String),
       cfg.should_ignore_file pathStr custom = true ↔
         ∃ p ∈ cfg.default_ignore_patterns ++ custom,
           (if pyStartsWith p "*" then pyEndsWith pathStr (pyDropFirst p)
            else pyContains pathStr p) = true)
  ∧ patternMatches "/a/b/app.log" "*.log" = true
  ∧ patternMatches "/a/b/log.txt" "*.log" = false
  ∧ patternMatches "/a/node_modules/x.js" "node_modules" = true := by
  refine ⟨?_, by decide, by decide, by decide⟩
  intro cfg pathStr custom
  rw [Config.should_ignore_file, ignoreLoop_iff]
  simp only [patternMatches]

/-- C7 witness: the matcher characterization applied to a concrete path and
the default configuration. -/
theorem c7_witness :
    defaultConfig.should_ignore_file "/x/node_modules/a.js" [] = true :=
  (c7_ignore_matcher.1 defaultConfig "/x/node_modules/a.js" []).mpr
    ⟨"node_modules", by decide, by decide⟩

/-- C9: when the multi-line start and end markers are the same non-empty
string (as for the default Python pattern), a non-blank line containing the
marker switches `in_multiline` to true, and from then on the state stays
true forever: every later non-blank line is counted as a comment and no
line is ever counted as code, whatever its content. -/
theorem c9_same_marker_lock_in (pats : CommentPatterns) (m : String) (hm : ¬ m = "")
    (hs : pats.multi_start = some m) (he : pats.multi_end = some m) :
    (∀ line, ¬ pyStrip line = "" → pyContains (pyStrip line) m = true →
        lineStep pats false line = (LineKind.comment, true))
  ∧ (∀ rest, classifyLines pats rest true =
        (0, rest.countP (fun l => !decide (pyStrip l = "")),
         rest.countP (fun l => decide (pyStrip l = "")))) := by
  have hstep : ∀ line, lineStep pats true line =
      (if pyStrip line = "" then LineKind.blank else LineKind.comment, true) := by
    intro line
    by_cases hb : pyStrip line = ""
    · simp [lineStep, hb]
    · by_cases hc : pyContains (pyStrip line) m = true
      · simp [lineStep, hb, markerIn, hs, hm, hc]
      · simp [lineStep, hb, markerIn, hs, he, hm, hc]
  constructor
  · intro line hnb hc
    simp [lineStep, hnb, markerIn, hs, hm, hc]
  · intro rest
    induction rest with
    | nil => simp [classifyLines]
    | cons l rest ih =>
      by_cases hb : pyStrip l = ""
      · simp [classifyLines, hstep, hb, addKind, ih, List.countP_cons]
      · simp [classifyLines, hstep, hb, addKind, ih, List.countP_cons]

/-- C9 witness: the Python pattern of the default configuration locks in
after a line containing the triple quote; three subsequent lines (two
non-blank, one blank) all count as comment or blank, none as code. -/
theorem c9_witness :
    lineStep (defaultConfig.get_comment_patterns_for_file "a.py") false "\"\"\" doc" =
      (LineKind.comment, true) ∧
    classifyLines (defaultConfig.get_comment_patterns_for_file "a.py")
      ["x = 1", "", "return 2"] true = (0, 2, 1) := by
  have h := c9_same_marker_lock_in (defaultConfig.get_comment_patterns_for_file "a.py")
    "\"\"\"" (by decide) (by decide) (by decide)
  refine ⟨h.1 "\"\"\" doc" (by decide) (by decide), ?_⟩
  rw [h.2]
  decide

/-- C5: after every completed traversal, the per-category file counts sum to
`total_files` and the per-category cumulative sizes sum to `total_size`. -/
theorem c5_category_sums (a : Analyzer) (rootPath : String) (root : Option FSEntry)
    (r : AnalysisResult) (hok : a.analyze rootPath root = Except.ok r) :
    dictSum r.stats.file_types = r.stats.total_files ∧
    dictSum r.stats.file_sizes = r.stats.total_size := by
  cases root with
  | none => exact absurd hok (by simp [Analyzer.analyze])
  | some e =>
    have h := analyze_directory_preserves a
      (fun st => dictSum st.stats.file_types = st.stats.total_files ∧
                 dictSum st.stats.file_sizes = st.stats.total_size)
      (by intro st hq; simpa [bumpDirs] using hq)
      (by intro st fi hq _; simp [processFile, dictSum_dictAdd, hq.1, hq.2])
      e rootPath 0 initState (by simp [initState, dictSum])
    simp only [Analyzer.analyze, Except.ok.injEq] at hok
    subst hok
    exact h

/-- C5 witness: the invariant on the result of analyzing an empty root
directory. -/
theorem c5_witness :
    dictSum emptyResult.stats.file_types = emptyResult.stats.total_files ∧
    dictSum emptyResult.stats.file_sizes = emptyResult.stats.total_size :=
  c5_category_sums (mkAnalyzer defaultConfig none none) "/r" (some emptyRootDir)
    emptyResult rfl

/-- C10: the default ignore patterns are always evaluated in addition to the
caller-supplied ones — any path containing a non-star default pattern (such
as `build`, `node_modules` or `__pycache__`) is ignored even with an empty
custom list — and every record of a completed analysis has a path on which
the ignore check returned false, so no record is ever produced for such a
path. -/
theorem c10_default_patterns_always_apply :
    (∀ (cfg : Config) (pathStr p : String) (custom : List String),
        p ∈ cfg.default_ignore_patterns → pyStartsWith p "*" = false →
        pyContains pathStr p = true → cfg.should_ignore_file pathStr custom = true)
  ∧ (∀ (a : Analyzer) (rootPath : String) (root : Option FSEntry) (r : AnalysisResult),
        a.analyze rootPath root = Except.ok r →
        ∀ fi ∈ r.files, a.config.should_ignore_file fi.path a.ignore_patterns = false) := by
  constructor
  · intro cfg pathStr p custom hp hstar hc
    rw [Config.should_ignore_file, ignoreLoop_iff]
    exact ⟨p, List.mem_append_left _ hp, by simp [patternMatches, hstar, hc]⟩
  · intro a rootPath root r hok fi hfi
    cases root with
    | none => exact absurd hok (by simp [Analyzer.analyze])
    | some e =>
      have h := analyze_directory_preserves a
        (fun st => ∀ fi ∈ st.files,
            a.config.should_ignore_file fi.path a.ignore_patterns = false)
        (by intro st hq; simpa [bumpDirs] using hq)
        (by
          intro st fi2 hq hok2 fi3 hfi3
          simp only [processFile, List.mem_append, List.mem_singleton] at hfi3
          rcases hfi3 with hmem | heq
          · exact hq fi3 hmem
          · subst heq
            obtain ⟨cp, nm, sz, mt, ct, se, re, hana, hign⟩ := hok2
            have hpath := (analyze_file_path_size a cp nm sz mt ct se re fi3 hana).1
            rw [hpath]
            exact should_ignore_file_false_config a cp sz se hign)
        e rootPath 0 initState (by simp [initState])
      simp only [Analyzer.analyze, Except.ok.injEq] at hok
      subst hok
      exact h fi hfi

/-- C10 witness: a path containing the default pattern `build` is ignored
with an empty custom list, and the empty-root analysis produces no record
violating the check. -/
theorem c10_witness :
    defaultConfig.should_ignore_file "/a/build/x.py" [] = true :=
  c10_default_patterns_always_apply.1 defaultConfig "/a/build/x.py" "build" []
    (by decide) (by decide) (by decide)

/-- C6: one offer step of the largest-file tracker keeps at most `n`
records, keeps them sorted descending by size, and offering a record
strictly smaller than every held record while at capacity returns the list
unchanged. -/
theorem c6_topn_tracker (n : Nat) (l : List FileInfo) (x : FileInfo)
    (hlen : l.length ≤ n)
    (hsorted : List.Pairwise (fun a b : FileInfo => b.size ≤ a.size) l) :
    (topNOffer n l x).length ≤ n
  ∧ List.Pairwise (fun a b : FileInfo => b.size ≤ a.size) (topNOffer n l x)
  ∧ (l.length = n → (∀ y ∈ l, x.size < y.size) → topNOffer n l x = l) := by
  have htrans : ∀ (a b c : FileInfo), sizeDescLe a b → sizeDescLe b c → sizeDescLe a c := by
    intro a b c
    simp only [sizeDescLe, decide_eq_true_eq]
    omega
  have htotal : ∀ (a b : FileInfo), sizeDescLe a b || sizeDescLe b a := by
    intro a b
    simp only [sizeDescLe, Bool.or_eq_true, decide_eq_true_eq]
    omega
  have hp : List.Pairwise (fun a b : FileInfo => sizeDescLe a b = true)
      ((l ++ [x]).mergeSort sizeDescLe) :=
    List.sorted_mergeSort htrans htotal (l ++ [x])
  refine ⟨?_, ?_, ?_⟩
  · simp only [topNOffer]
    split
    · rename_i hgt
      rw [List.length_mergeSort] at hgt
      rw [List.length_dropLast, List.length_mergeSort]
      simp only [List.length_append, List.length_singleton] at hgt ⊢
      omega
    · rename_i hle
      rw [List.length_mergeSort] at hle ⊢
      simp only [List.length_append, List.length_singleton] at hle ⊢
      omega
  · have himp : ∀ {a b : FileInfo}, sizeDescLe a b = true → b.size ≤ a.size := by
      intro a b h
      simpa [sizeDescLe] using h
    simp only [topNOffer]
    split
    · exact (hp.sublist (List.dropLast_sublist _)).imp himp
    · exact hp.imp himp
  · intro hl hx
    have hsorted2 : List.Pairwise (fun a b : FileInfo => sizeDescLe a b = true) (l ++ [x]) := by
      rw [List.pairwise_append]
      refine ⟨hsorted.imp (fun h => by simpa [sizeDescLe] using h), by simp, ?_⟩
      intro a ha b hb
      simp only [List.mem_singleton] at hb
      subst hb
      simp only [sizeDescLe, decide_eq_true_eq]
      exact Nat.le_of_lt (hx a ha)
    simp only [topNOffer]
    rw [List.mergeSort_of_sorted hsorted2]
    have hlen2 : (l ++ [x]).length > n := by
      simp [hl]
    rw [if_pos hlen2]
    simp

/-- C6 witness: offering a strictly smaller record to a full two-element
tracker leaves it unchanged, within capacity. -/
theorem c6_witness :
    (topNOffer 2 [sampleRecord 3, sampleRecord 2] (sampleRecord 1)).length ≤ 2 ∧
    topNOffer 2 [sampleRecord 3, sampleRecord 2] (sampleRecord 1) =
      [sampleRecord 3, sampleRecord 2] := by
  have h := c6_topn_tracker 2 [sampleRecord 3, sampleRecord 2] (sampleRecord 1)
    (by decide) (by decide)
  exact ⟨h.1, h.2.2 (by decide) (by decide)⟩

/-- C8: `analyze` returns the path-not-found error exactly when the root
does not exist, and returns a normal result for every existing root — the
permission, OS and read failures representable in the filesystem model are
absorbed by the traversal. -/
theorem c8_fatal_only_path_not_found (a : Analyzer) (rootPath : String) (root : Option FSEntry) :
    (a.analyze rootPath root = Except.error AnalyzerError.pathNotFound ↔ root = none)
  ∧ (∀ e, root = some e → ∃ r, a.analyze rootPath root = Except.ok r) := by
  cases root with
  | none =>
    refine ⟨by simp [Analyzer.analyze], ?_⟩
    intro e h
    cases h
  | some e =>
    refine ⟨by simp [Analyzer.analyze], ?_⟩
    intro e2 h
    exact ⟨_, rfl⟩

/-- C8 witness: an existing empty root analyzes to a normal result. -/
theorem c8_witness :
    ∃ r, (mkAnalyzer defaultConfig none none).analyze "/r" (some emptyRootDir) = Except.ok r :=
  (c8_fatal_only_path_not_found (mkAnalyzer defaultConfig none none) "/r"
    (some emptyRootDir)).2 emptyRootDir rfl

/-- C1 (code bug): constructing the analyzer with `max_depth = 0` does not
restrict the traversal to the root. `__init__` computes
`max_depth or self.config.max_depth`, and Python treats `0` as falsy, so the
effective limit falls back to the configured default (`None`, unlimited):
the file `sub/a.py` inside a subdirectory is analyzed and recorded. -/
theorem c1_max_depth_zero_falls_back :
    (mkAnalyzer defaultConfig none (some 0)).max_depth = none ∧
    analysisFilePaths ((mkAnalyzer defaultConfig none (some 0)).analyze "/r" (some c1Tree)) =
      some ["/r/sub/a.py"] := by
  exact ⟨rfl, by decide⟩

/-- C3 counterexample: a file whose size exceeds the configured maximum
produces no `FileRecord` at all — the analysis of a root holding only an
oversized file yields an empty record list and zero totals, so no record
with its size and zeroed line counts exists. -/
theorem c3_counterexample :
    analysisFilesAndTotals ((mkAnalyzer defaultConfig none none).analyze "/r" (some c3Tree)) =
      some ([], 0, 0) := by decide

/-- C3 amended: a file whose size exceeds the configured maximum is skipped
entirely by the per-file pipeline — the traversal state is returned
unchanged, no record is created and the content is never read. -/
theorem c3_oversized_skipped_entirely (a : Analyzer) (childPath name : String)
    (size mtime : Nat) (content : List String) (statError readError : Bool)
    (st : AnalyzeState)
    (h : size > a.config.max_file_size_mb * 1024 * 1024) :
    processFileEntry a childPath name size mtime content statError readError st = st := by
  unfold processFileEntry
  have hig : a.should_ignore_file childPath size statError = true := by
    unfold Analyzer.should_ignore_file
    split
    · rfl
    · split
      · rfl
      · simpa using h
  rw [if_pos hig]

/-- C3 witness: the oversized file of the counterexample tree leaves the
initial state untouched. -/
theorem c3_witness :
    processFileEntry (mkAnalyzer defaultConfig none none) "/r/big.py" "big.py"
      104857601 0 ["x"] false false initState = initState :=
  c3_oversized_skipped_entirely (mkAnalyzer defaultConfig none none) "/r/big.py" "big.py"
    104857601 0 ["x"] false false initState (by decide)
